import Mathlib

/-!
Shallow embedding of the `pure-geo` geolocalization pipeline
(`src/intelligence/pure-geo`), covering:

* `src/utils/geo_utils.py`: `haversine_distance`, `cluster_coordinates`,
  `coord_to_class`, `class_to_coord`, `create_hierarchical_clusters`,
  `calculate_prediction_accuracy`;
* `src/models/geoloc_model.py`: the coordinate branch of
  `GeolocalizationModel.forward` (tanh head with fixed 90/180 scaling);
* `src/models/trainer.py`: the training loop's checkpointing policy and the
  `save_checkpoint` / `load_checkpoint` bookkeeping round trip;
* `src/utils/config.py` and `main.py`: `validate_config`,
  `create_directories` and the order of effects in `main`;
* `src/data/dataset.py`: `GeoImageDataset.__getitem__`'s corrupt-image
  fallback.

Conventions.  Python float values that the code stores in dictionaries and
compares for exact equality (coordinates, cluster ids, configuration values,
loop bookkeeping) are embedded as `ℚ` — every finite IEEE float is a rational
number — with `WithTop ℚ` wherever the code seeds a slot with `float('inf')`.
Values that only flow through real-valued arithmetic (haversine distances,
accuracies, tensor entries) are embedded as `ℝ`.  Python exceptions are
`Except`: a raised exception is `.error`, a normal return is `.ok`.
-/

open Classical

/-- Embedding of `math.radians(x)`: degrees to radians, `x * π / 180`. -/
noncomputable def radians (x : ℚ) : ℝ := (x : ℝ) * Real.pi / 180

/-- Embedding of `haversine_distance` from `src/utils/geo_utils.py` lines 13-35:
great-circle distance in kilometers between `(lat1, lon1)` and
`(lat2, lon2)`, computed by converting to radians and applying
`a = sin²(Δlat/2) + cos lat1 · cos lat2 · sin²(Δlon/2)`,
`c = 2·asin(√a)`, result `c * 6371`. -/
noncomputable def haversine_distance (lat1 lon1 lat2 lon2 : ℚ) : ℝ :=
  2 * Real.arcsin (Real.sqrt (
    Real.sin ((radians lat2 - radians lat1) / 2) ^ 2 +
    Real.cos (radians lat1) * Real.cos (radians lat2) *
      Real.sin ((radians lon2 - radians lon1) / 2) ^ 2)) * 6371

/-- The clustering-info dictionary built by `cluster_coordinates`
(`src/utils/geo_utils.py` lines 38-76): `cluster_to_coord` maps cluster ids
to centroids (in dict insertion order `0, 1, …`), `coord_to_cluster` maps
each training coordinate to its k-means label.  The fitted sklearn model
object itself is not part of the embedding (no claim reads it back). -/
structure ClusteringInfo where
  cluster_to_coord : List (ℕ × (ℚ × ℚ))
  coord_to_cluster : List ((ℚ × ℚ) × ℕ)
  num_clusters : ℕ
  method : String

/-- The linear scan inside `coord_to_class` (`src/utils/geo_utils.py`
lines 91-101): `min_distance = float('inf')`, `nearest_cluster = 0`, then
for each `(cluster_id, centroid)` of `cluster_to_coord`, update both when
the haversine distance is strictly smaller than the minimum so far.
The accumulator is the pair `(min_distance, nearest_cluster)`, with
`float('inf')` embedded as `(⊤ : EReal)`. -/
noncomputable def nearestScan (lat lon : ℚ) :
    List (ℕ × (ℚ × ℚ)) → EReal × ℕ → EReal × ℕ
  | [], acc => acc
  | (cid, c) :: rest, (minD, best) =>
    if ((haversine_distance lat lon c.1 c.2 : ℝ) : EReal) < minD then
      nearestScan lat lon rest (((haversine_distance lat lon c.1 c.2 : ℝ) : EReal), cid)
    else nearestScan lat lon rest (minD, best)

/-- Embedding of `coord_to_class` from `src/utils/geo_utils.py` lines 79-103: if the
coordinate is a key of `coord_to_cluster`, return its stored label;
otherwise return the id of the nearest centroid found by the linear scan. -/
noncomputable def coord_to_class (lat lon : ℚ) (info : ClusteringInfo) : ℕ :=
  match info.coord_to_cluster.lookup (lat, lon) with
  | some c => c
  | none => (nearestScan lat lon info.cluster_to_coord ((⊤ : EReal), 0)).2

/-- Embedding of `class_to_coord` from `src/utils/geo_utils.py` lines 106-120: return the
centroid stored for `class_id`, or raise
`ValueError(f"Unknown class ID: {class_id}")` when the id is absent. -/
def class_to_coord (class_id : ℕ) (info : ClusteringInfo) :
    Except String (ℚ × ℚ) :=
  match info.cluster_to_coord.lookup class_id with
  | some c => .ok c
  | none => .error ("Unknown class ID: " ++ toString class_id)

/-- Squared Euclidean distance on raw `(lat, lon)` pairs — the metric
sklearn's `KMeans` minimizes when it assigns labels. -/
def sqEuclid (p q : ℚ × ℚ) : ℚ :=
  (p.1 - q.1) ^ 2 + (p.2 - q.2) ^ 2

/-- Embedding of `cluster_coordinates` from `src/utils/geo_utils.py` lines 38-76, as a
relation between its inputs and the returned dictionary.  The call into
sklearn (`KMeans(n_clusters=…).fit_predict`) is an external library whose
source is not in the repository; it is modelled by its documented contract:
at convergence every sample is labelled with a Euclidean-nearest centroid
and every centroid is the mean of the samples labelled with it.  The rest
mirrors the function body: `cluster_to_coord = {i: centroids[i] for i in
range(num_clusters)}` and `coord_to_cluster[coord] = labels[i]` for each
input coordinate. -/
def cluster_coordinates (coordinates : List (ℚ × ℚ)) (numClusters : ℕ)
    (info : ClusteringInfo) : Prop :=
  info.num_clusters = numClusters ∧
  info.method = "kmeans" ∧
  ∃ centroid : ℕ → ℚ × ℚ, ∃ label : ℚ × ℚ → ℕ,
    info.cluster_to_coord =
      (List.range numClusters).map (fun i => (i, centroid i)) ∧
    info.coord_to_cluster = coordinates.map (fun p => (p, label p)) ∧
    (∀ p ∈ coordinates, label p < numClusters ∧
      ∀ j < numClusters, sqEuclid p (centroid (label p)) ≤ sqEuclid p (centroid j)) ∧
    (∀ j < numClusters,
      let members := coordinates.filter (fun p => label p = j)
      (members.length : ℚ) ≠ 0 ∧
      centroid j = ((members.map Prod.fst).sum / members.length,
                    (members.map Prod.snd).sum / members.length))

/-- The `clustering` section of the configuration
(`config/config.yaml` keys read by `create_hierarchical_clusters`). -/
structure ClusteringSection where
  country_clusters : ℕ
  region_clusters : ℕ
  city_clusters : ℕ
  precise_clusters : ℕ
  method : String
deriving DecidableEq

/-- The `levels` list built in `create_hierarchical_clusters`
(`src/utils/geo_utils.py` lines 138-143). -/
def levelSpecs (cc : ClusteringSection) : List (String × ℕ) :=
  [("country", cc.country_clusters), ("region", cc.region_clusters),
   ("city", cc.city_clusters), ("precise", cc.precise_clusters)]

/-- Embedding of `actual_clusters = min(num_clusters, len(set(coordinates)))`
(`src/utils/geo_utils.py` line 149). -/
def actualClusters (numClusters : ℕ) (coordinates : List (ℚ × ℚ)) : ℕ :=
  min numClusters coordinates.dedup.length

/-- The per-level loop of `create_hierarchical_clusters`
(`src/utils/geo_utils.py` lines 145-159), at the level of the cluster
counts it passes to `cluster_coordinates`: levels are processed in order,
each with its requested count replaced by `actual_clusters`.  The sklearn
`KMeans` call inside `cluster_coordinates` requires `n_clusters >= 1`
(its documented parameter contract): when the adjusted count is `0` —
an empty coordinate list or a configured count of `0` — the fit raises,
and the exception propagates out of the first such level.  The fitted
per-level models themselves are the sklearn output related to these
counts by the `cluster_coordinates` relation above. -/
def clusterLevels (coordinates : List (ℚ × ℚ)) :
    List (String × ℕ) → Except String (List (String × ℕ))
  | [] => .ok []
  | (name, n) :: rest =>
    if actualClusters n coordinates = 0 then
      .error "KMeans: n_clusters must be >= 1"
    else
      match clusterLevels coordinates rest with
      | .error e => .error e
      | .ok others => .ok ((name, actualClusters n coordinates) :: others)

/-- Embedding of `create_hierarchical_clusters` from `src/utils/geo_utils.py`
lines 123-161: run the per-level loop over the four levels; a
non-`"kmeans"` method raises `NotImplementedError` inside the first
`cluster_coordinates` call, before any count matters. -/
def create_hierarchical_clusters (coordinates : List (ℚ × ℚ))
    (cc : ClusteringSection) : Except String (List (String × ℕ)) :=
  if cc.method = "kmeans" then
    clusterLevels coordinates (levelSpecs cc)
  else
    .error ("Clustering method " ++ cc.method ++ " not implemented")

/-- Python exception kinds raised by `calculate_prediction_accuracy`. -/
inductive PyError where
  | valueError (msg : String)
  | zeroDivisionError
deriving DecidableEq

/-- The result dictionary of `calculate_prediction_accuracy`
(`src/utils/geo_utils.py` lines 215-226): one `accuracy_{t}km` entry per
threshold (keyed here by the threshold itself), plus
`mean_distance_error_km` and `median_distance_error_km`. -/
structure AccuracyReport where
  accuracies : List (ℝ × ℝ)
  mean_distance_error_km : ℝ
  median_distance_error_km : ℝ

/-- Insertion into a sorted list of reals (helper for `npMedian`). -/
noncomputable def insertReal (x : ℝ) : List ℝ → List ℝ
  | [] => [x]
  | y :: ys => if x ≤ y then x :: y :: ys else y :: insertReal x ys

/-- Insertion sort on reals (helper for `npMedian`). -/
noncomputable def sortReal : List ℝ → List ℝ
  | [] => []
  | x :: xs => insertReal x (sortReal xs)

/-- Embedding of `np.mean`: sum divided by length (on the empty list NumPy yields `nan`
with a warning, not an exception; here the junk value is `0/0 = 0`). -/
noncomputable def npMean (xs : List ℝ) : ℝ := xs.sum / xs.length

/-- Embedding of `np.median`: middle of the sorted list, averaging the two middle
elements for even length (junk value `0` on the empty list, where NumPy
yields `nan` with a warning, not an exception). -/
noncomputable def npMedian (xs : List ℝ) : ℝ :=
  let s := sortReal xs
  let n := s.length
  if n = 0 then 0
  else if n % 2 = 1 then s.getD (n / 2) 0
  else (s.getD (n / 2 - 1) 0 + s.getD (n / 2) 0) / 2

/-- The `for threshold in distance_thresholds` loop of
`calculate_prediction_accuracy` (`src/utils/geo_utils.py` lines 216-219):
`correct = sum(1 for d in distances if d <= threshold)` then
`correct / len(distances)` — a `ZeroDivisionError` when `distances` is
empty, hit at the first threshold. -/
noncomputable def accuracyLoop (distances : List ℝ) :
    List ℝ → Except PyError (List (ℝ × ℝ))
  | [] => .ok []
  | t :: ts =>
    if distances.length = 0 then .error .zeroDivisionError
    else
      match accuracyLoop distances ts with
      | .error e => .error e
      | .ok rest =>
        .ok ((t, ((distances.countP (fun d => d ≤ t) : ℕ) : ℝ) /
              (distances.length : ℝ)) :: rest)

/-- Embedding of `calculate_prediction_accuracy` from `src/utils/geo_utils.py`
lines 193-227: raise `ValueError` on a length mismatch, compute the
haversine distance of each true/predicted pair, then one accuracy entry per
threshold plus mean and median distance error. -/
noncomputable def calculate_prediction_accuracy
    (true_coords predicted_coords : List (ℚ × ℚ))
    (distance_thresholds : List ℝ) : Except PyError AccuracyReport :=
  if true_coords.length ≠ predicted_coords.length then
    .error (.valueError "Length mismatch between true and predicted coordinates")
  else
    let distances := List.zipWith
      (fun t p => haversine_distance t.1 t.2 p.1 p.2)
      true_coords predicted_coords
    match accuracyLoop distances distance_thresholds with
    | .error e => .error e
    | .ok accs =>
      .ok { accuracies := accs
            mean_distance_error_km := npMean distances
            median_distance_error_km := npMedian distances }

/-- The coordinate branch of `GeolocalizationModel.forward`
(`src/models/geoloc_model.py` lines 116-153 with the `Tanh` head of
`coord_regressor`, lines 74-83): everything upstream of the final `Tanh` —
backbone, feature embedding and the linear/ReLU/dropout layers of
`coord_regressor`, for arbitrary weights — is an arbitrary function
`preTanh` of the input; the model then applies `tanh` componentwise and
scales by the fixed factors 90 (latitude) and 180 (longitude). -/
noncomputable def forwardCoordinates {α : Type} (preTanh : α → ℝ × ℝ)
    (x : α) : ℝ × ℝ :=
  let z := preTanh x
  (Real.tanh z.1 * 90, Real.tanh z.2 * 180)

/-- Trainer bookkeeping state (`GeolocalizationTrainer.__init__`,
`src/models/trainer.py` lines 60-75): `current_epoch = 0`,
`best_val_loss = float('inf')`, `best_distance_error = float('inf')`; the
model / optimizer / scheduler / scaler state dicts are carried abstractly
(type parameters), with `scaler` optional (`None` when mixed precision is
off). -/
structure TrainerState (M O S SC : Type) where
  current_epoch : ℕ
  best_val_loss : WithTop ℚ
  best_distance_error : WithTop ℚ
  model_state : M
  optimizer_state : O
  scheduler_state : S
  scaler_state : Option SC

/-- The checkpoint dictionary written by `save_checkpoint`
(`src/models/trainer.py` lines 315-331). -/
structure Checkpoint (M O S SC C Me : Type) where
  epoch : ℕ
  model_state_dict : M
  optimizer_state_dict : O
  scheduler_state_dict : S
  best_val_loss : WithTop ℚ
  best_distance_error : WithTop ℚ
  config : C
  metrics : Me
  scaler_state_dict : Option SC

/-- Embedding of `save_checkpoint` (`src/models/trainer.py` lines 315-331): bundle the
current bookkeeping fields and state dicts; the `scaler_state_dict` key is
added only when a scaler exists. -/
def save_checkpoint {M O S SC C Me : Type} (st : TrainerState M O S SC)
    (config : C) (metrics : Me) : Checkpoint M O S SC C Me :=
  { epoch := st.current_epoch
    model_state_dict := st.model_state
    optimizer_state_dict := st.optimizer_state
    scheduler_state_dict := st.scheduler_state
    best_val_loss := st.best_val_loss
    best_distance_error := st.best_distance_error
    config := config
    metrics := metrics
    scaler_state_dict := st.scaler_state }

/-- Embedding of `load_checkpoint` (`src/models/trainer.py` lines 333-354): a missing
file (`none`) only warns and leaves the trainer unchanged; otherwise the
state dicts and the bookkeeping fields are restored from the checkpoint
(`best_distance_error` via `.get(…, float('inf'))`, always present in a
saved checkpoint), and the scaler state only when the trainer has a scaler
and the checkpoint has the key. -/
def load_checkpoint {M O S SC C Me : Type}
    (file : Option (Checkpoint M O S SC C Me))
    (st : TrainerState M O S SC) : TrainerState M O S SC :=
  match file with
  | none => st
  | some c =>
    { current_epoch := c.epoch
      best_val_loss := c.best_val_loss
      best_distance_error := c.best_distance_error
      model_state := c.model_state_dict
      optimizer_state := c.optimizer_state_dict
      scheduler_state := c.scheduler_state_dict
      scaler_state :=
        match st.scaler_state, c.scaler_state_dict with
        | some old, none => some old
        | some _, some s => some s
        | none, _ => none }

/-- The per-epoch validation metrics the training loop reads
(`val_loss` and `val_mean_distance_error_km`). -/
structure EpochMetrics where
  val_loss : WithTop ℚ
  val_mean_distance_error_km : WithTop ℚ
deriving DecidableEq

/-- The bookkeeping the `train` loop mutates across epochs. -/
structure TrainLoopState where
  best_val_loss : WithTop ℚ
  best_distance_error : WithTop ℚ
  epochs_without_improvement : ℕ
deriving DecidableEq

/-- A `save_checkpoint` call made by the training loop: `best_model.pth`
on an improved epoch (0-based index), or `checkpoint_epoch_{n}.pth` with
the 1-based epoch number `n`. -/
inductive CheckpointEvent where
  | bestModel (epoch : ℕ)
  | checkpointEpoch (oneBased : ℕ)
deriving DecidableEq

/-- The improvement test of the training loop (`src/models/trainer.py`
lines 279-291): improved iff `val_loss < best_val_loss` or
`val_mean_distance_error_km < best_distance_error`. -/
def improvedAt (m : EpochMetrics) (s : TrainLoopState) : Bool :=
  decide (m.val_loss < s.best_val_loss) ||
  decide (m.val_mean_distance_error_km < s.best_distance_error)

/-- The loop-state update of one epoch (`src/models/trainer.py`
lines 279-296): each best is lowered independently when beaten, and the
no-improvement counter resets on any improvement, else increments. -/
def stepState (m : EpochMetrics) (s : TrainLoopState) : TrainLoopState :=
  { best_val_loss :=
      if m.val_loss < s.best_val_loss then m.val_loss else s.best_val_loss
    best_distance_error :=
      if m.val_mean_distance_error_km < s.best_distance_error then
        m.val_mean_distance_error_km
      else s.best_distance_error
    epochs_without_improvement :=
      if improvedAt m s then 0 else s.epochs_without_improvement + 1 }

/-- The early-stopping test, evaluated after the improvement bookkeeping of
the epoch (`src/models/trainer.py` lines 299-302):
`epochs_without_improvement >= patience`. -/
def earlyStopAt (patience : ℕ) (m : EpochMetrics) (s : TrainLoopState) : Bool :=
  decide ((stepState m s).epochs_without_improvement ≥ patience)

/-- The checkpoint-writing behavior of the `train` loop
(`src/models/trainer.py` lines 249-306), driven by the sequence of per-epoch
validation metrics: for each epoch (0-based index `epoch`) the loop saves
`best_model.pth` when improved, then breaks when the early-stopping counter
reaches `patience`, and only past that check saves
`checkpoint_epoch_{epoch+1}.pth` when `(epoch + 1) % 10 == 0`. -/
def runFrom (patience : ℕ) : ℕ → List EpochMetrics → TrainLoopState →
    List CheckpointEvent
  | _, [], _ => []
  | epoch, m :: rest, s =>
    let s' := stepState m s
    let saves := if improvedAt m s then [CheckpointEvent.bestModel epoch] else []
    if s'.epochs_without_improvement ≥ patience then saves
    else
      saves ++
        (if (epoch + 1) % 10 = 0 then [CheckpointEvent.checkpointEpoch (epoch + 1)]
         else []) ++
        runFrom patience (epoch + 1) rest s'

/-- The initial loop state (`best_val_loss = best_distance_error =
float('inf')`, counter `0`). -/
def initLoopState : TrainLoopState := ⟨⊤, ⊤, 0⟩

/-- The whole `train` loop's checkpoint writes for a run over the given
per-epoch metrics (`num_epochs` = length of the metrics list). -/
def trainCheckpoints (patience : ℕ) (metrics : List EpochMetrics) :
    List CheckpointEvent :=
  runFrom patience 0 metrics initLoopState

/-- The `data` section fields read by `validate_config` and
`create_directories` (`src/utils/config.py`). -/
structure DataSection where
  image_size : List ℕ
  raw_dir : String
  processed_dir : String
  models_dir : String
deriving DecidableEq

/-- The `model` section field read by `validate_config`. -/
structure ModelSection where
  num_classes : ℤ
deriving DecidableEq

/-- The `training` section (presence is what `validate_config` checks). -/
structure TrainingSection where
  num_epochs : ℕ
  early_stopping_patience : ℕ
deriving DecidableEq

/-- A configuration dictionary: each required top-level section is `none`
when the key is missing. -/
structure Config where
  data : Option DataSection
  model : Option ModelSection
  training : Option TrainingSection
  clustering : Option ClusteringSection
deriving DecidableEq

/-- Embedding of `validate_config` from `src/utils/config.py` lines 93-117: check the
required sections in order `data, model, training, clustering`, raising
`ValueError` at the first missing one; then `image_size` must have exactly
two elements and `num_classes` must be positive. -/
def validate_config (config : Config) : Except String Bool :=
  match config.data with
  | none => .error "Required configuration section missing: data"
  | some d =>
    match config.model with
    | none => .error "Required configuration section missing: model"
    | some m =>
      match config.training with
      | none => .error "Required configuration section missing: training"
      | some _ =>
        match config.clustering with
        | none => .error "Required configuration section missing: clustering"
        | some _ =>
          if d.image_size.length ≠ 2 then
            .error "image_size must be a list of 2 integers"
          else if m.num_classes ≤ 0 then
            .error "num_classes must be positive"
          else .ok true

/-- Observable side effects of `main` (`main.py`): directory creation
(`create_directories`), logger setup, and the data collection /
loading phase. -/
inductive MainAction where
  | createDirectory (dir : String)
  | setupLogging
  | collectData
deriving DecidableEq

/-- Embedding of `create_directories` from `src/utils/config.py` lines 74-90: `makedirs`
for `raw_dir`, `processed_dir`, `models_dir` and `"logs"`. -/
def create_directories (d : DataSection) : List MainAction :=
  [d.raw_dir, d.processed_dir, d.models_dir, "logs"].map .createDirectory

/-- The startup sequence of `main` (`main.py` lines 152-170) as an effect
trace: `validate_config` runs first and a raised `ValueError` aborts `main`
with no actions performed; only after it returns does `main` call
`create_directories`, set up logging, and proceed to collect/load data.
Result: the list of performed actions paired with the outcome. -/
def mainRun (config : Config) : List MainAction × Except String Unit :=
  match validate_config config with
  | .error e => ([], .error e)
  | .ok _ =>
    match config.data with
    | none => ([], .error "KeyError: data")
    | some d =>
      (create_directories d ++ [MainAction.setupLogging, MainAction.collectData],
       .ok ())

/-- A 3-d image tensor: shape `(channels, height, width)` plus entries. -/
structure Tensor3 where
  channels : ℕ
  height : ℕ
  width : ℕ
  entry : ℕ → ℕ → ℕ → ℝ

/-- Embedding of `torch.zeros(3, *self.image_size)`: the black placeholder tensor. -/
def torchZeros (c h w : ℕ) : Tensor3 :=
  { channels := c, height := h, width := w, entry := fun _ _ _ => 0 }

/-- One row of the dataset table (`self.data_df.iloc[idx]`): image path,
coordinates, and whichever `{level}_class` columns are present. -/
structure DatasetRow where
  image_path : String
  lat : ℚ
  lon : ℚ
  class_columns : List (String × ℕ)

/-- The `targets` dictionary built by `__getitem__`
(`src/data/dataset.py` lines 134-142): the coordinate tensor plus one entry
per hierarchy level whose `{level}_class` column exists in the row. -/
structure Targets where
  coordinates : ℚ × ℚ
  classes : List (String × ℕ)
deriving DecidableEq

/-- The `metadata` dictionary of `__getitem__`. -/
structure ItemMetadata where
  image_path : String
  lat : ℚ
  lon : ℚ
deriving DecidableEq

/-- The dictionary returned by `__getitem__`. -/
structure DatasetItem where
  image : Tensor3
  targets : Targets
  metadata : ItemMetadata

/-- The targets built from a row (`src/data/dataset.py` lines 134-142). -/
def mkTargets (row : DatasetRow) : Targets :=
  { coordinates := (row.lat, row.lon)
    classes := ["country", "region", "city", "precise"].filterMap
      (fun level => (row.class_columns.lookup (level ++ "_class")).map
        (fun c => (level, c))) }

/-- Embedding of `GeoImageDataset.__getitem__` (`src/data/dataset.py` lines 111-151).
The `try` block — `Image.open(...).convert('RGB')`, EXIF-orientation
correction, and the transform pipeline — is I/O whose outcome is passed in
as `loaded`: `.ok t` is the transformed tensor, `.error e` any exception
raised inside the block, answered by the black fallback
`torch.zeros(3, *self.image_size)`.  Targets and metadata are built from
the row either way. -/
def getItem (image_dir : String) (image_size : ℕ × ℕ) (row : DatasetRow)
    (loaded : Except String Tensor3) : DatasetItem :=
  let image := match loaded with
    | .ok t => t
    | .error _ => torchZeros 3 image_size.1 image_size.2
  { image := image
    targets := mkTargets row
    metadata :=
      { image_path := image_dir ++ "/" ++ row.image_path
        lat := row.lat
        lon := row.lon } }

/-! ### Theorems -/

/-- The function `tanh` is strictly inside `(-1, 1)`: `cosh² - sinh² = 1` forces
`|sinh| < cosh`. -/
lemma abs_tanh_lt_one (x : ℝ) : |Real.tanh x| < 1 := by
  have hc := Real.cosh_pos x
  rw [Real.tanh_eq_sinh_div_cosh, abs_div, abs_of_pos hc, div_lt_one hc]
  nlinarith [Real.cosh_sq_sub_sinh_sq x, abs_nonneg (Real.sinh x),
    sq_abs (Real.sinh x)]

/-- C2: for every input (hence for every value of the upstream network,
quantified as an arbitrary function `preTanh`), the `coordinates` output of
the forward pass lies in `[-90, 90] × [-180, 180]`, because the regression
head ends in `tanh` scaled by the fixed factors 90 and 180. -/
theorem forward_coordinates_in_range {α : Type} (preTanh : α → ℝ × ℝ)
    (x : α) :
    -90 ≤ (forwardCoordinates preTanh x).1 ∧
    (forwardCoordinates preTanh x).1 ≤ 90 ∧
    -180 ≤ (forwardCoordinates preTanh x).2 ∧
    (forwardCoordinates preTanh x).2 ≤ 180 := by
  have h1 := abs_tanh_lt_one (preTanh x).1
  have h2 := abs_tanh_lt_one (preTanh x).2
  rw [abs_lt] at h1 h2
  simp only [forwardCoordinates]
  refine ⟨by nlinarith [h1.1], by nlinarith [h1.2], by nlinarith [h2.1],
    by nlinarith [h2.2]⟩

/-- C3: `class_to_coord` returns the stored centroid verbatim for a class
id present in `cluster_to_coord`, and raises
`ValueError("Unknown class ID: …")` — not a default value — for an absent
id. -/
theorem class_to_coord_verbatim_or_error (info : ClusteringInfo) (cid : ℕ) :
    (∀ c, info.cluster_to_coord.lookup cid = some c →
      class_to_coord cid info = .ok c) ∧
    (info.cluster_to_coord.lookup cid = none →
      class_to_coord cid info = .error ("Unknown class ID: " ++ toString cid)) := by
  constructor
  · intro c hc
    simp [class_to_coord, hc]
  · intro hc
    simp [class_to_coord, hc]

/-- A concrete clustering info used to instantiate witnesses. -/
def witInfo : ClusteringInfo :=
  { cluster_to_coord := [(0, ((5 : ℚ), (6 : ℚ)))]
    coord_to_cluster := [(((5 : ℚ), (6 : ℚ)), 0)]
    num_clusters := 1
    method := "kmeans" }

theorem class_to_coord_verbatim_or_error_witness :
    class_to_coord 0 witInfo = .ok ((5 : ℚ), (6 : ℚ)) ∧
    class_to_coord 3 witInfo = .error ("Unknown class ID: " ++ toString 3) :=
  ⟨(class_to_coord_verbatim_or_error witInfo 0).1 _ rfl,
   (class_to_coord_verbatim_or_error witInfo 3).2 rfl⟩

/-- C5: saving a checkpoint and loading the produced file restores
`current_epoch`, `best_val_loss` and `best_distance_error` to exactly the
values at save time, whatever the trainer's state at load time. -/
theorem checkpoint_roundtrip {M O S SC C Me : Type}
    (st later : TrainerState M O S SC) (config : C) (metrics : Me) :
    (load_checkpoint (some (save_checkpoint st config metrics)) later).current_epoch
        = st.current_epoch ∧
    (load_checkpoint (some (save_checkpoint st config metrics)) later).best_val_loss
        = st.best_val_loss ∧
    (load_checkpoint (some (save_checkpoint st config metrics)) later).best_distance_error
        = st.best_distance_error :=
  ⟨rfl, rfl, rfl⟩

/-- When every adjusted count is non-zero the per-level loop succeeds and
returns each level with its `actual_clusters` count. -/
lemma clusterLevels_eq_of_pos (coordinates : List (ℚ × ℚ))
    (hd : coordinates.dedup.length ≠ 0) :
    ∀ specs : List (String × ℕ), (∀ p ∈ specs, 0 < p.2) →
      clusterLevels coordinates specs =
        .ok (specs.map (fun p => (p.1, actualClusters p.2 coordinates))) := by
  intro specs
  induction specs with
  | nil =>
    intro _
    rfl
  | cons a rest ih =>
    intro hpos
    obtain ⟨name, n⟩ := a
    have hn : 0 < n := hpos (name, n) (List.mem_cons_self _ _)
    have ha : ¬ actualClusters n coordinates = 0 := by
      unfold actualClusters
      rw [Nat.min_def]
      split_ifs <;> omega
    have hrest := ih (fun p hp => hpos p (List.mem_cons_of_mem _ hp))
    simp only [clusterLevels, if_neg ha, hrest, List.map_cons]

/-- C7 counterexample: with an empty coordinate list every configured
count (here 5 per level) exceeds the number of distinct coordinates (0), so
the count is reduced to 0 — and then clustering does *not* proceed without
error: the `KMeans(n_clusters=0)` fit inside `cluster_coordinates` raises
at the first level. -/
theorem create_hierarchical_clusters_empty_counterexample :
    (([] : List (ℚ × ℚ)).dedup.length = 0 ∧ 0 < 5) ∧
    create_hierarchical_clusters ([] : List (ℚ × ℚ)) ⟨5, 5, 5, 5, "kmeans"⟩ =
      .error "KMeans: n_clusters must be >= 1" :=
  ⟨⟨rfl, by omega⟩, rfl⟩

/-- C7 (amended): for each of the four hierarchy levels,
`create_hierarchical_clusters` uses the configured count unchanged when it
does not exceed the number of distinct coordinates, and silently reduces it
to the number of distinct coordinates otherwise; it proceeds without error
provided the coordinate list is non-empty and every configured count is
positive (otherwise some adjusted count is 0 and the sklearn `KMeans` call
raises — see the counterexample). -/
theorem create_hierarchical_clusters_counts (coordinates : List (ℚ × ℚ))
    (cc : ClusteringSection) (h : cc.method = "kmeans")
    (hne : coordinates ≠ []) (hpos : ∀ p ∈ levelSpecs cc, 0 < p.2) :
    create_hierarchical_clusters coordinates cc =
      .ok ((levelSpecs cc).map (fun p =>
        (p.1, if coordinates.dedup.length < p.2 then coordinates.dedup.length
              else p.2))) := by
  have hd : coordinates.dedup.length ≠ 0 := by
    intro hc
    exact hne ((List.dedup_eq_nil _).mp (List.eq_nil_of_length_eq_zero hc))
  have hmin : ∀ n : ℕ, actualClusters n coordinates =
      if coordinates.dedup.length < n then coordinates.dedup.length else n := by
    intro n
    unfold actualClusters
    rw [Nat.min_def]
    split_ifs <;> omega
  simp only [create_hierarchical_clusters, h, if_pos,
    clusterLevels_eq_of_pos coordinates hd (levelSpecs cc) hpos, hmin]

theorem create_hierarchical_clusters_counts_witness :
    create_hierarchical_clusters [((1 : ℚ), (2 : ℚ)), ((1 : ℚ), (2 : ℚ)), ((3 : ℚ), (4 : ℚ))]
      ⟨2, 3, 5, 7, "kmeans"⟩ =
      .ok ((levelSpecs ⟨2, 3, 5, 7, "kmeans"⟩).map (fun p =>
        (p.1, if ([((1 : ℚ), (2 : ℚ)), ((1 : ℚ), (2 : ℚ)), ((3 : ℚ), (4 : ℚ))].dedup).length < p.2
              then ([((1 : ℚ), (2 : ℚ)), ((1 : ℚ), (2 : ℚ)), ((3 : ℚ), (4 : ℚ))].dedup).length
              else p.2))) :=
  create_hierarchical_clusters_counts _ _ rfl (by decide) (by decide)

/-- C8: a configuration missing any required section — in particular
`clustering` — makes `validate_config` raise, and since `main` validates
before `create_directories` and before any data work, the run performs no
actions: no directory is created and no data is read. -/
theorem missing_section_aborts_main (config : Config)
    (h : config.data = none ∨ config.model = none ∨
         config.training = none ∨ config.clustering = none) :
    (∃ e, validate_config config = .error e) ∧ (mainRun config).1 = [] := by
  have hv : ∃ e, validate_config config = .error e := by
    unfold validate_config
    rcases hd : config.data with _ | d
    · exact ⟨_, rfl⟩
    · rcases hm : config.model with _ | m
      · exact ⟨_, rfl⟩
      · rcases ht : config.training with _ | t
        · exact ⟨_, rfl⟩
        · rcases hc : config.clustering with _ | cl
          · exact ⟨_, rfl⟩
          · simp_all
  obtain ⟨e, he⟩ := hv
  refine ⟨⟨e, he⟩, ?_⟩
  simp [mainRun, he]

theorem missing_section_aborts_main_witness :
    (∃ e, validate_config
        { data := some ⟨[224, 224], "data/raw", "data/processed", "models"⟩
          model := some ⟨10⟩
          training := some ⟨100, 15⟩
          clustering := none } = .error e) ∧
    (mainRun
        { data := some ⟨[224, 224], "data/raw", "data/processed", "models"⟩
          model := some ⟨10⟩
          training := some ⟨100, 15⟩
          clustering := none }).1 = [] :=
  missing_section_aborts_main _ (Or.inr (Or.inr (Or.inr rfl)))

/-- C9: if the image pipeline (open / EXIF transpose / transform) raises,
`__getitem__` still returns; the returned image is the all-zeros tensor of
shape `(3, image_height, image_width)` and the targets and metadata are
exactly those of a successful load of the same row. -/
theorem getitem_black_fallback (image_dir : String) (image_size : ℕ × ℕ)
    (row : DatasetRow) (e : String) (t : Tensor3) :
    (getItem image_dir image_size row (.error e)).image =
      torchZeros 3 image_size.1 image_size.2 ∧
    (getItem image_dir image_size row (.error e)).targets =
      (getItem image_dir image_size row (.ok t)).targets ∧
    (getItem image_dir image_size row (.error e)).metadata =
      (getItem image_dir image_size row (.ok t)).metadata :=
  ⟨rfl, rfl, rfl⟩


/-- With a non-empty distance list the accuracy loop raises nothing and
returns one `correct / len(distances)` entry per threshold. -/
lemma accuracyLoop_eq (distances : List ℝ) (h : distances.length ≠ 0) :
    ∀ ths : List ℝ, accuracyLoop distances ths =
      .ok (ths.map (fun t =>
        (t, ((distances.countP (fun d => d ≤ t) : ℕ) : ℝ) /
          (distances.length : ℝ)))) := by
  intro ths
  induction ths with
  | nil => rfl
  | cons t ts ih => simp [accuracyLoop, h, ih]

/-- C4: for non-empty equal-length coordinate lists and thresholds
`t1 ≤ t2`, the accuracy `calculate_prediction_accuracy` reports at `t1` is
at most the accuracy it reports at `t2`. -/
theorem accuracy_monotone_in_threshold (true_coords predicted_coords : List (ℚ × ℚ))
    (t1 t2 : ℝ) (hlen : true_coords.length = predicted_coords.length)
    (hne : true_coords ≠ []) (hth : t1 ≤ t2) :
    ∃ a1 a2 m md,
      calculate_prediction_accuracy true_coords predicted_coords [t1, t2] =
        .ok ⟨[(t1, a1), (t2, a2)], m, md⟩ ∧ a1 ≤ a2 := by
  set distances := List.zipWith
    (fun t p => haversine_distance t.1 t.2 p.1 p.2)
    true_coords predicted_coords with hdist
  have hd0 : distances.length ≠ 0 := by
    rw [hdist, List.length_zipWith, hlen, Nat.min_self]
    exact fun hc => hne (List.eq_nil_of_length_eq_zero (hlen.trans hc))
  refine ⟨((distances.countP (fun d => d ≤ t1) : ℕ) : ℝ) / (distances.length : ℝ),
    ((distances.countP (fun d => d ≤ t2) : ℕ) : ℝ) / (distances.length : ℝ),
    npMean distances, npMedian distances, ?_, ?_⟩
  · simp only [calculate_prediction_accuracy, hlen, ne_eq, not_true_eq_false,
      if_false, ← hdist, accuracyLoop_eq distances hd0]
    rfl
  · have hcount : distances.countP (fun d => d ≤ t1) ≤
        distances.countP (fun d => d ≤ t2) := by
      refine List.countP_mono_left ?_
      intro d _ hd
      exact decide_eq_true (le_trans (of_decide_eq_true hd) hth)
    have hpos : (0 : ℝ) < (distances.length : ℝ) := by
      exact_mod_cast Nat.pos_of_ne_zero hd0
    exact (div_le_div_iff_of_pos_right hpos).mpr (by exact_mod_cast hcount)

theorem accuracy_monotone_in_threshold_witness :
    ∃ a1 a2 m md,
      calculate_prediction_accuracy [((0 : ℚ), (0 : ℚ))] [((0 : ℚ), (0 : ℚ))]
        [0, 1] = .ok ⟨[(0, a1), (1, a2)], m, md⟩ ∧ a1 ≤ a2 :=
  accuracy_monotone_in_threshold [((0 : ℚ), (0 : ℚ))] [((0 : ℚ), (0 : ℚ))] 0 1
    rfl (by decide) zero_le_one

/-- C10: `calculate_prediction_accuracy` is not total on equal-length
inputs: on two empty coordinate lists with a non-empty threshold list it
raises `ZeroDivisionError` instead of returning; on equal-length non-empty
lists it returns normally; on lists of different lengths it raises
`ValueError`. -/
theorem calculate_prediction_accuracy_totality :
    (∀ (t : ℝ) (ts : List ℝ),
      calculate_prediction_accuracy [] [] (t :: ts) =
        .error .zeroDivisionError) ∧
    (∀ (tc pc : List (ℚ × ℚ)) (ths : List ℝ), tc.length = pc.length →
      tc ≠ [] → ∃ r, calculate_prediction_accuracy tc pc ths = .ok r) ∧
    (∀ (tc pc : List (ℚ × ℚ)) (ths : List ℝ), tc.length ≠ pc.length →
      calculate_prediction_accuracy tc pc ths =
        .error (.valueError "Length mismatch between true and predicted coordinates")) := by
  refine ⟨?_, ?_, ?_⟩
  · intro t ts
    rfl
  · intro tc pc ths hlen hne
    set distances := List.zipWith
      (fun t p => haversine_distance t.1 t.2 p.1 p.2) tc pc with hdist
    have hd0 : distances.length ≠ 0 := by
      rw [hdist, List.length_zipWith, hlen, Nat.min_self]
      exact fun hc => hne (List.eq_nil_of_length_eq_zero (hlen.trans hc))
    refine ⟨⟨ths.map (fun t =>
        (t, ((distances.countP (fun d => d ≤ t) : ℕ) : ℝ) /
          (distances.length : ℝ))), npMean distances, npMedian distances⟩, ?_⟩
    simp only [calculate_prediction_accuracy, hlen, ne_eq, not_true_eq_false,
      if_false, ← hdist, accuracyLoop_eq distances hd0]
  · intro tc pc ths hlen
    simp [calculate_prediction_accuracy, hlen]

theorem calculate_prediction_accuracy_totality_witness :
    calculate_prediction_accuracy [] [] [1] = .error .zeroDivisionError ∧
    (∃ r, calculate_prediction_accuracy [((0 : ℚ), (0 : ℚ))]
      [((1 : ℚ), (1 : ℚ))] [5] = .ok r) ∧
    calculate_prediction_accuracy [((0 : ℚ), (0 : ℚ))] [] [5] =
      .error (.valueError "Length mismatch between true and predicted coordinates") :=
  ⟨calculate_prediction_accuracy_totality.1 1 [],
   calculate_prediction_accuracy_totality.2.1 _ _ [5] rfl (by decide),
   calculate_prediction_accuracy_totality.2.2 _ _ [5] (by decide)⟩

/-- C6 (amended): in every reachable configuration of the training loop, an
epoch whose validation metrics improve saves `best_model.pth`, and an epoch
whose 1-based index is a multiple of 10 saves
`checkpoint_epoch_{…}.pth` provided early stopping does not trigger at that
epoch (the `break` sits before the periodic save, so an epoch at which the
patience budget runs out skips its periodic checkpoint). -/
theorem train_checkpoint_policy (patience epoch : ℕ) (m : EpochMetrics)
    (rest : List EpochMetrics) (s : TrainLoopState) :
    (improvedAt m s = true →
      CheckpointEvent.bestModel epoch ∈
        runFrom patience epoch (m :: rest) s) ∧
    ((epoch + 1) % 10 = 0 → earlyStopAt patience m s = false →
      CheckpointEvent.checkpointEpoch (epoch + 1) ∈
        runFrom patience epoch (m :: rest) s) := by
  constructor
  · intro h
    unfold runFrom
    simp only [h, if_true]
    by_cases hs : (stepState m s).epochs_without_improvement ≥ patience <;>
      simp [hs]
  · intro h10 hes
    have hlt : ¬ (stepState m s).epochs_without_improvement ≥ patience := by
      have := of_decide_eq_false hes
      exact this
    unfold runFrom
    by_cases h : improvedAt m s = true <;> simp [h, hlt, h10]

theorem train_checkpoint_policy_witness :
    (improvedAt ⟨((5 : ℚ) : WithTop ℚ), ⊤⟩ initLoopState = true ∧
      CheckpointEvent.bestModel 9 ∈
        runFrom 3 9 [⟨((5 : ℚ) : WithTop ℚ), ⊤⟩] initLoopState) ∧
    ((9 + 1) % 10 = 0 ∧ earlyStopAt 3 ⟨((5 : ℚ) : WithTop ℚ), ⊤⟩ initLoopState = false ∧
      CheckpointEvent.checkpointEpoch 10 ∈
        runFrom 3 9 [⟨((5 : ℚ) : WithTop ℚ), ⊤⟩] initLoopState) :=
  ⟨⟨by decide,
    (train_checkpoint_policy 3 9 ⟨((5 : ℚ) : WithTop ℚ), ⊤⟩ [] initLoopState).1
      (by decide)⟩,
   ⟨by decide, by decide,
    (train_checkpoint_policy 3 9 ⟨((5 : ℚ) : WithTop ℚ), ⊤⟩ [] initLoopState).2
      (by decide) (by decide)⟩⟩

/-- A 10-epoch metric sequence: the validation loss improves on epochs 0-8
and worsens on epoch 9 (distance error never improves), so with
`early_stopping_patience = 1` the loop breaks at epoch 9 — 1-based epoch
10 — before the every-10-epochs save. -/
def exEpochMetrics : List EpochMetrics :=
  [⟨((10 : ℚ) : WithTop ℚ), ⊤⟩, ⟨((9 : ℚ) : WithTop ℚ), ⊤⟩,
   ⟨((8 : ℚ) : WithTop ℚ), ⊤⟩, ⟨((7 : ℚ) : WithTop ℚ), ⊤⟩,
   ⟨((6 : ℚ) : WithTop ℚ), ⊤⟩, ⟨((5 : ℚ) : WithTop ℚ), ⊤⟩,
   ⟨((4 : ℚ) : WithTop ℚ), ⊤⟩, ⟨((3 : ℚ) : WithTop ℚ), ⊤⟩,
   ⟨((2 : ℚ) : WithTop ℚ), ⊤⟩, ⟨((100 : ℚ) : WithTop ℚ), ⊤⟩]

/-- C6 counterexample: a 10-epoch run (`num_epochs = 10`, patience 1) in
which the loop executes epoch 9 — whose 1-based index 10 is a multiple of
10 — yet writes no `checkpoint_epoch_10.pth`, because early stopping breaks
out before the periodic save; so a checkpoint is *not* written on every
epoch whose 1-based index is a multiple of 10 regardless of when the loop
stops. -/
theorem train_periodic_checkpoint_counterexample :
    exEpochMetrics.length = 10 ∧
    trainCheckpoints 1 exEpochMetrics =
      [.bestModel 0, .bestModel 1, .bestModel 2, .bestModel 3, .bestModel 4,
       .bestModel 5, .bestModel 6, .bestModel 7, .bestModel 8] ∧
    CheckpointEvent.checkpointEpoch 10 ∉ trainCheckpoints 1 exEpochMetrics := by
  refine ⟨rfl, ?_, ?_⟩ <;> decide

/-- Invariant of the nearest-centroid linear scan: the resulting minimum is
at most the incoming one and at most every scanned distance, and the result
is either the untouched accumulator or the entry realising the minimum. -/
lemma nearestScan_spec (lat lon : ℚ) :
    ∀ (l : List (ℕ × (ℚ × ℚ))) (acc : EReal × ℕ),
      (nearestScan lat lon l acc).1 ≤ acc.1 ∧
      (∀ e ∈ l, (nearestScan lat lon l acc).1 ≤
        ((haversine_distance lat lon e.2.1 e.2.2 : ℝ) : EReal)) ∧
      (nearestScan lat lon l acc = acc ∨
        ∃ e ∈ l, e.1 = (nearestScan lat lon l acc).2 ∧
          ((haversine_distance lat lon e.2.1 e.2.2 : ℝ) : EReal) =
            (nearestScan lat lon l acc).1) := by
  intro l
  induction l with
  | nil =>
    intro acc
    exact ⟨le_refl _, by simp, Or.inl rfl⟩
  | cons e0 rest ih =>
    rintro ⟨minD, best⟩
    obtain ⟨cid, c⟩ := e0
    by_cases hd : ((haversine_distance lat lon c.1 c.2 : ℝ) : EReal) < minD
    · have hred : nearestScan lat lon ((cid, c) :: rest) (minD, best) =
          nearestScan lat lon rest
            (((haversine_distance lat lon c.1 c.2 : ℝ) : EReal), cid) := by
        simp only [nearestScan]
        rw [if_pos hd]
      obtain ⟨ha, hb, hc⟩ := ih
        (((haversine_distance lat lon c.1 c.2 : ℝ) : EReal), cid)
      rw [hred]
      refine ⟨le_of_lt (lt_of_le_of_lt ha hd), ?_, ?_⟩
      · intro e he
        rcases List.mem_cons.mp he with rfl | he'
        · exact ha
        · exact hb e he'
      · rcases hc with hc | ⟨e, he, h1, h2⟩
        · right
          exact ⟨(cid, c), List.mem_cons_self _ _, by rw [hc], by rw [hc]⟩
        · right
          exact ⟨e, List.mem_cons_of_mem _ he, h1, h2⟩
    · have hred : nearestScan lat lon ((cid, c) :: rest) (minD, best) =
          nearestScan lat lon rest (minD, best) := by
        simp only [nearestScan]
        rw [if_neg hd]
      obtain ⟨ha, hb, hc⟩ := ih (minD, best)
      rw [hred]
      refine ⟨ha, ?_, ?_⟩
      · intro e he
        rcases List.mem_cons.mp he with rfl | he'
        · exact le_trans ha (not_lt.mp hd)
        · exact hb e he'
      · rcases hc with hc | ⟨e, he, h1, h2⟩
        · exact Or.inl hc
        · exact Or.inr ⟨e, List.mem_cons_of_mem _ he, h1, h2⟩

/-- In an association list with pairwise-distinct keys (a dictionary),
`lookup` of the key of a member returns that member's value. -/
lemma lookup_eq_of_mem_nodup {β : Type} {l : List (ℕ × β)}
    (hnd : (l.map Prod.fst).Nodup) {e : ℕ × β} (he : e ∈ l) :
    l.lookup e.1 = some e.2 := by
  induction l with
  | nil => cases he
  | cons a rest ih =>
    rw [List.map_cons, List.nodup_cons] at hnd
    rcases List.mem_cons.mp he with rfl | he'
    · simp [List.lookup]
    · have hne : (e.1 == a.1) = false := by
        refine beq_eq_false_iff_ne.mpr ?_
        intro hq
        exact hnd.1 (hq ▸ List.mem_map_of_mem Prod.fst he')
      simp [List.lookup, hne, ih hnd.2 he']

/-- Starting from `(inf, 0)`, the scan over a non-empty centroid list
returns the id of a centroid whose haversine distance is minimal. -/
lemma nearestScan_nearest (lat lon : ℚ) (l : List (ℕ × (ℚ × ℚ)))
    (hne : l ≠ []) :
    ∃ e ∈ l, e.1 = (nearestScan lat lon l ((⊤ : EReal), 0)).2 ∧
      ∀ e2 ∈ l, haversine_distance lat lon e.2.1 e.2.2 ≤
        haversine_distance lat lon e2.2.1 e2.2.2 := by
  obtain ⟨ha, hb, hc⟩ := nearestScan_spec lat lon l ((⊤ : EReal), 0)
  rcases hc with hc | ⟨e, he, h1, h2⟩
  · exfalso
    obtain ⟨e0, rest, rfl⟩ := List.exists_cons_of_ne_nil hne
    have hble := hb e0 (List.mem_cons_self _ _)
    rw [hc] at hble
    exact absurd hble (not_le.mpr (EReal.coe_lt_top _))
  · refine ⟨e, he, h1, ?_⟩
    intro e2 he2
    have hble := hb e2 he2
    rw [← h2] at hble
    exact_mod_cast hble

/-- C1 (amended): for every valid coordinate that is *not* a key of the
`coord_to_cluster` dictionary (an unseen coordinate) and every clustering
info whose `cluster_to_coord` dictionary is non-empty with distinct keys,
`class_to_coord (coord_to_class lat lon info) info` succeeds and returns a
centroid whose haversine distance to the coordinate is minimal among all
centroids.  (For coordinates stored in `coord_to_cluster` the trained
k-means label is returned instead, which minimizes squared Euclidean — not
haversine — distance; see the counterexample.) -/
theorem coord_to_class_roundtrip_nearest (lat lon : ℚ) (info : ClusteringInfo)
    (_hlat1 : -90 ≤ lat) (_hlat2 : lat ≤ 90)
    (_hlon1 : -180 ≤ lon) (_hlon2 : lon ≤ 180)
    (hnodup : (info.cluster_to_coord.map Prod.fst).Nodup)
    (hne : info.cluster_to_coord ≠ [])
    (hunseen : info.coord_to_cluster.lookup (lat, lon) = none) :
    ∃ cen, class_to_coord (coord_to_class lat lon info) info = .ok cen ∧
      ∀ e ∈ info.cluster_to_coord,
        haversine_distance lat lon cen.1 cen.2 ≤
          haversine_distance lat lon e.2.1 e.2.2 := by
  obtain ⟨e, he, hid, hmin⟩ := nearestScan_nearest lat lon
    info.cluster_to_coord hne
  refine ⟨e.2, ?_, hmin⟩
  have hcl : coord_to_class lat lon info =
      (nearestScan lat lon info.cluster_to_coord ((⊤ : EReal), 0)).2 := by
    unfold coord_to_class
    rw [hunseen]
  rw [hcl, ← hid]
  unfold class_to_coord
  rw [lookup_eq_of_mem_nodup hnodup he]

/-- The six training coordinates of the C1 counterexample, all on the
equator. -/
def exCoords : List (ℚ × ℚ) :=
  [(0, -155), (0, 40), (0, 55), (0, 60), (0, 140), (0, 160)]

/-- A k-means fixed point on `exCoords` with two clusters: centroids
`(0, 0)` (members at longitudes `-155, 40, 55, 60`) and `(0, 150)`
(members at longitudes `140, 160`); every member is strictly
Euclidean-nearest to its own centroid. -/
def exInfo : ClusteringInfo :=
  { cluster_to_coord := [(0, (0, 0)), (1, (0, 150))]
    coord_to_cluster := [((0, -155), 0), ((0, 40), 0), ((0, 55), 0),
                         ((0, 60), 0), ((0, 140), 1), ((0, 160), 1)]
    num_clusters := 2
    method := "kmeans" }

theorem coord_to_class_roundtrip_nearest_witness :
    ((-90 : ℚ) ≤ 10 ∧ (10 : ℚ) ≤ 90 ∧ (-180 : ℚ) ≤ 20 ∧ (20 : ℚ) ≤ 180) ∧
    (∃ cen, class_to_coord (coord_to_class 10 20 exInfo) exInfo = .ok cen ∧
      ∀ e ∈ exInfo.cluster_to_coord,
        haversine_distance 10 20 cen.1 cen.2 ≤
          haversine_distance 10 20 e.2.1 e.2.2) :=
  ⟨by decide,
   coord_to_class_roundtrip_nearest 10 20 exInfo (by decide) (by decide)
     (by decide) (by decide) (by decide) (by decide) (by decide)⟩

/-- On the equator the haversine formula collapses to
`2 · arcsin |sin(Δlon·π/360)| · 6371`. -/
lemma haversine_equator (lon1 lon2 : ℚ) :
    haversine_distance 0 lon1 0 lon2 =
      2 * Real.arcsin |Real.sin ((((lon2 : ℝ) - (lon1 : ℝ)) * Real.pi) / 360)| *
        6371 := by
  unfold haversine_distance
  have h0 : radians 0 = 0 := by
    unfold radians
    norm_num
  have harg : (radians lon2 - radians lon1) / 2 =
      (((lon2 : ℝ) - (lon1 : ℝ)) * Real.pi) / 360 := by
    unfold radians
    ring
  rw [h0, harg]
  simp [Real.sqrt_sq_eq_abs]

/-- Concrete equatorial distance: from longitude `-155` to `150` the
haversine distance wraps across the antimeridian and equals
`2 · (55π/360) · 6371`. -/
lemma haversine_neg155_150 :
    haversine_distance 0 (-155) 0 150 =
      2 * (55 * Real.pi / 360) * 6371 := by
  have hpi := Real.pi_pos
  rw [haversine_equator]
  have h1 : (((150 : ℚ) : ℝ) - ((-155 : ℚ) : ℝ)) * Real.pi / 360 =
      305 * Real.pi / 360 := by
    push_cast
    ring
  rw [h1]
  have hs : Real.sin (305 * Real.pi / 360) =
      Real.sin (55 * Real.pi / 360) := by
    rw [show (305 : ℝ) * Real.pi / 360 =
      Real.pi - 55 * Real.pi / 360 by ring]
    exact Real.sin_pi_sub _
  rw [hs, abs_of_nonneg (Real.sin_nonneg_of_nonneg_of_le_pi
    (by positivity) (by nlinarith))]
  rw [Real.arcsin_sin (by nlinarith) (by nlinarith)]

/-- Concrete equatorial distance: from longitude `-155` to `0` the
haversine distance equals `2 · (155π/360) · 6371`. -/
lemma haversine_neg155_0 :
    haversine_distance 0 (-155) 0 0 =
      2 * (155 * Real.pi / 360) * 6371 := by
  have hpi := Real.pi_pos
  rw [haversine_equator]
  have h1 : (((0 : ℚ) : ℝ) - ((-155 : ℚ) : ℝ)) * Real.pi / 360 =
      155 * Real.pi / 360 := by
    push_cast
    ring
  rw [h1]
  rw [abs_of_nonneg (Real.sin_nonneg_of_nonneg_of_le_pi
    (by positivity) (by nlinarith))]
  rw [Real.arcsin_sin (by nlinarith) (by nlinarith)]

/-- C1 counterexample: `exInfo` is a `cluster_coordinates` output on
`exCoords` (a k-means fixed point), the coordinate `(0, -155)` is a valid
coordinate, and the round trip
`class_to_coord (coord_to_class 0 (-155) exInfo) exInfo` returns the stored
k-means centroid `(0, 0)` — yet the *other* centroid `(0, 150)` is strictly
closer in haversine distance (55° vs 155° of arc across the antimeridian),
because the stored label minimizes squared Euclidean distance on raw
(lat, lon), not haversine distance.  So the claimed nearest-centroid
property fails for coordinates present in `coord_to_cluster`. -/
theorem coord_to_class_roundtrip_counterexample :
    cluster_coordinates exCoords 2 exInfo ∧
    ((-90 : ℚ) ≤ 0 ∧ (0 : ℚ) ≤ 90 ∧ (-180 : ℚ) ≤ -155 ∧ (-155 : ℚ) ≤ 180) ∧
    class_to_coord (coord_to_class 0 (-155) exInfo) exInfo =
      .ok ((0 : ℚ), (0 : ℚ)) ∧
    (1, ((0 : ℚ), (150 : ℚ))) ∈ exInfo.cluster_to_coord ∧
    haversine_distance 0 (-155) 0 150 < haversine_distance 0 (-155) 0 0 := by
  refine ⟨?_, by decide, ?_, by decide, ?_⟩
  · refine ⟨rfl, rfl,
      fun i => if i = 0 then ((0 : ℚ), (0 : ℚ)) else ((0 : ℚ), (150 : ℚ)),
      fun p => if p.2 < 75 then 0 else 1, ?_, ?_, ?_, ?_⟩
    · decide
    · decide
    · intro p hp
      fin_cases hp <;>
        refine ⟨by norm_num, ?_⟩ <;>
        · intro j hj
          interval_cases j <;> norm_num [sqEuclid]
    · intro j hj
      interval_cases j <;>
        refine ⟨by norm_num [exCoords], by norm_num [exCoords, Prod.ext_iff]⟩
  · rfl
  · rw [haversine_neg155_150, haversine_neg155_0]
    nlinarith [Real.pi_pos]
